import Mathlib

/-!
Verification of the FOSSMate backend event-ingestion and review pipeline.

Shallow embedding of the Python sources of `backend/app`:
  * `routers/webhooks.py`   — idempotency key, persist-and-enqueue ingestion
  * `services/llm_service.py` — fallback provider (generate / embed / stream)
  * `services/review_service.py` — categorization, suggestions, issue helpers
  * `services/webhook_processor.py` — delivery-processor state machine
  * `services/event_normalizer.py` — payload normalization
  * `services/task_queue.py` — in-memory job queue

Python dictionaries are modelled by a small JSON value type; `datetime`
values are modelled as opaque integers with parsing supplied as an oracle
function; each network/LLM call site is modelled by an `Except`-valued
oracle argument (the value the awaited call would return, or the exception
it would raise).
-/

namespace FOSSMate

/-- JSON-ish value type standing in for Python's `dict[str, Any]` payloads. -/
inductive Json where
  | nullj : Json
  | bool (b : Bool) : Json
  | num (n : Int) : Json
  | str (s : String) : Json
  | arr (items : List Json) : Json
  | obj (fields : List (String × Json)) : Json

namespace Json

/-- `d.get(k)` on a Python dict: `None` when the key is absent.
On a non-dict receiver Python would raise `AttributeError`; the sources
only call `.get` on values defaulted to `{}`, so we return `none` there. -/
def get? : Json → String → Option Json
  | .obj fields, k => (fields.find? (fun kv => kv.1 = k)).map (·.2)
  | _, _ => none

/-- `d.get(k, default)`. -/
def getD (j : Json) (k : String) (dflt : Json) : Json :=
  (j.get? k).getD dflt

/-- `d.get(k)` with Python's implicit `None` default, as a `Json` value. -/
def getN (j : Json) (k : String) : Json :=
  j.getD k .nullj

/-- Python truthiness of a JSON value (used to embed `a or b` chains). -/
def truthy : Json → Bool
  | .nullj => false
  | .bool b => b
  | .num n => n ≠ 0
  | .str s => s ≠ ""
  | .arr items => !items.isEmpty
  | .obj fields => !fields.isEmpty

/-- Python `a or b`: `a` when truthy, else `b`. -/
def pyOr (a b : Json) : Json := if a.truthy then a else b

end Json

/-! ## `routers/webhooks.py` — `_idempotency_key` (claim C5) -/

/-- `_idempotency_key`: `f"{platform}:{delivery_id}:{event_type}:{action}"`. -/
def idempotency_key (platform delivery_id event_type action : String) : String :=
  platform ++ ":" ++ delivery_id ++ ":" ++ event_type ++ ":" ++ action

/-- The character list underlying the key. -/
theorem idempotency_key_data (p d e a : String) :
    (idempotency_key p d e a).data
      = p.data ++ ':' :: (d.data ++ ':' :: (e.data ++ ':' :: a.data)) := by
  simp [idempotency_key, String.data_append]

theorem string_eq_of_data_eq {s t : String} (h : s.data = t.data) : s = t := by
  cases s; cases t; simp only at h; rw [h]

theorem data_eq_of_string_eq {s t : String} (h : s = t) : s.data = t.data := by
  rw [h]

/-- Claim C5: `_idempotency_key` is a pure deterministic function of the
four-tuple, and any two tuples that differ in exactly one component (the
other three held equal) produce different keys. -/
theorem idempotency_key_deterministic_and_single_component_injective :
    (∀ p₁ d₁ e₁ a₁ p₂ d₂ e₂ a₂ : String,
        p₁ = p₂ → d₁ = d₂ → e₁ = e₂ → a₁ = a₂ →
        idempotency_key p₁ d₁ e₁ a₁ = idempotency_key p₂ d₂ e₂ a₂) ∧
    (∀ p₁ p₂ d e a : String, p₁ ≠ p₂ →
        idempotency_key p₁ d e a ≠ idempotency_key p₂ d e a) ∧
    (∀ p d₁ d₂ e a : String, d₁ ≠ d₂ →
        idempotency_key p d₁ e a ≠ idempotency_key p d₂ e a) ∧
    (∀ p d e₁ e₂ a : String, e₁ ≠ e₂ →
        idempotency_key p d e₁ a ≠ idempotency_key p d e₂ a) ∧
    (∀ p d e a₁ a₂ : String, a₁ ≠ a₂ →
        idempotency_key p d e a₁ ≠ idempotency_key p d e a₂) := by
  refine ⟨?_, ?_, ?_, ?_, ?_⟩
  · intro p₁ d₁ e₁ a₁ p₂ d₂ e₂ a₂ hp hd he ha
    subst hp; subst hd; subst he; subst ha; rfl
  · intro p₁ p₂ d e a hne heq
    apply hne
    have h := data_eq_of_string_eq heq
    rw [idempotency_key_data, idempotency_key_data] at h
    exact string_eq_of_data_eq (List.append_cancel_right h)
  · intro p d₁ d₂ e a hne heq
    apply hne
    have h := data_eq_of_string_eq heq
    rw [idempotency_key_data, idempotency_key_data] at h
    have h₁ := List.append_cancel_left h
    have h₂ : d₁.data ++ ':' :: (e.data ++ ':' :: a.data)
        = d₂.data ++ ':' :: (e.data ++ ':' :: a.data) := List.cons_injective h₁
    exact string_eq_of_data_eq (List.append_cancel_right h₂)
  · intro p d e₁ e₂ a hne heq
    apply hne
    have h := data_eq_of_string_eq heq
    rw [idempotency_key_data, idempotency_key_data] at h
    have h₁ := List.cons_injective (List.append_cancel_left h)
    have h₂ := List.cons_injective (List.append_cancel_left h₁)
    exact string_eq_of_data_eq (List.append_cancel_right h₂)
  · intro p d e a₁ a₂ hne heq
    apply hne
    have h := data_eq_of_string_eq heq
    rw [idempotency_key_data, idempotency_key_data] at h
    have h₁ := List.cons_injective (List.append_cancel_left h)
    have h₂ := List.cons_injective (List.append_cancel_left h₁)
    have h₃ := List.cons_injective (List.append_cancel_left h₂)
    exact string_eq_of_data_eq h₃

/-- Witness for C5 at concrete inputs: equal tuples agree, and changing the
platform alone, the delivery id alone, the event type alone, or the action
alone each changes the key. -/
theorem idempotency_key_spec_witness :
    idempotency_key "github" "d1" "pull_request" "opened"
        = idempotency_key "github" "d1" "pull_request" "opened" ∧
    idempotency_key "github" "d1" "pull_request" "opened"
        ≠ idempotency_key "gitlab" "d1" "pull_request" "opened" ∧
    idempotency_key "github" "d1" "pull_request" "opened"
        ≠ idempotency_key "github" "d2" "pull_request" "opened" ∧
    idempotency_key "github" "d1" "pull_request" "opened"
        ≠ idempotency_key "github" "d1" "issues" "opened" ∧
    idempotency_key "github" "d1" "pull_request" "opened"
        ≠ idempotency_key "github" "d1" "pull_request" "closed" :=
  ⟨idempotency_key_deterministic_and_single_component_injective.1
      "github" "d1" "pull_request" "opened" "github" "d1" "pull_request" "opened"
      rfl rfl rfl rfl,
   idempotency_key_deterministic_and_single_component_injective.2.1
      "github" "gitlab" "d1" "pull_request" "opened" (by decide),
   idempotency_key_deterministic_and_single_component_injective.2.2.1
      "github" "d1" "d2" "pull_request" "opened" (by decide),
   idempotency_key_deterministic_and_single_component_injective.2.2.2.1
      "github" "d1" "pull_request" "issues" "opened" (by decide),
   idempotency_key_deterministic_and_single_component_injective.2.2.2.2
      "github" "d1" "pull_request" "opened" "closed" (by decide)⟩

/-! ## `models/schemas.py` — `NormalizedEvent`

`datetime` values are modelled as `Int` (an abstract instant); `payload`
stays a raw `Json` value, exactly as pydantic keeps `dict[str, Any]`. -/

structure NormalizedEvent where
  platform : String
  delivery_id : String
  event_type : String
  action : String
  installation_id : Option Int := none
  repository_id : Option Int := none
  repository_owner : Option String := none
  repository_name : Option String := none
  repository_full_name : Option String := none
  pr_number : Option Int := none
  pr_title : Option String := none
  issue_number : Option Int := none
  issue_title : Option String := none
  sender_login : Option String := none
  head_sha : Option String := none
  language : String := "en"
  occurred_at : Int
  payload : Json

/-! ## `routers/webhooks.py` — `_persist_and_enqueue` (claim C2)

The database (`WebhookEvent` and `DeliveryLog` tables) and the in-memory
queue are modelled as explicit lists; `session.add`/`commit` appends a row
and assigns the next primary key. -/

structure WebhookEventRec where
  id : Nat
  event_type : String
  payload : Json

structure DeliveryLogRec where
  id : Nat
  platform : String
  delivery_id : String
  idempotency_key : String
  webhook_event_id : Nat
  installation_id : Option Int
  status : String
  error_message : Option String := none
  normalized_event : NormalizedEvent

structure WebhookEventResponse where
  status : String
  event_id : Nat
  event_type : String
  platform : String
  duplicate : Bool

structure IngestState where
  webhook_events : List WebhookEventRec
  delivery_logs : List DeliveryLogRec
  queue : List (String × Json)
  next_id : Nat

/-- `_persist_and_enqueue`: look up an existing `DeliveryLog` by
idempotency key; if found return it marked duplicate; otherwise persist the
raw payload (`WebhookEvent`), persist a new `DeliveryLog` with
`status="queued"`, and enqueue a `process_delivery_log` job carrying the
new row's id. -/
def persist_and_enqueue (platform event_type : String) (normalized : NormalizedEvent)
    (payload : Json) (delivery_id : String) (s : IngestState) :
    WebhookEventResponse × IngestState :=
  let key := idempotency_key platform delivery_id event_type normalized.action
  match s.delivery_logs.find? (fun d => d.idempotency_key == key) with
  | some existing =>
      ({ status := "accepted", event_id := existing.webhook_event_id,
         event_type := event_type, platform := platform, duplicate := true }, s)
  | none =>
      let weId := s.next_id
      let we : WebhookEventRec := { id := weId, event_type := event_type, payload := payload }
      let dlId := s.next_id + 1
      let dl : DeliveryLogRec :=
        { id := dlId, platform := platform, delivery_id := delivery_id,
          idempotency_key := key, webhook_event_id := weId,
          installation_id := normalized.installation_id, status := "queued",
          error_message := none, normalized_event := normalized }
      let s1 : IngestState :=
        { webhook_events := s.webhook_events ++ [we],
          delivery_logs := s.delivery_logs ++ [dl],
          queue := s.queue ++ [("process_delivery_log", Json.obj [("delivery_log_id", Json.num dlId)])],
          next_id := s.next_id + 2 }
      ({ status := "accepted", event_id := weId, event_type := event_type,
         platform := platform, duplicate := false }, s1)

theorem find?_append_of_none {α : Type} (p : α → Bool) (l₁ l₂ : List α)
    (h : l₁.find? p = none) : (l₁ ++ l₂).find? p = l₂.find? p := by
  induction l₁ with
  | nil => simp
  | cons a t ih =>
    cases hp : p a with
    | true => rw [List.find?_cons_of_pos _ hp] at h; exact absurd h (by simp)
    | false =>
      have hp' : ¬ p a = true := by simp [hp]
      rw [List.find?_cons_of_neg _ hp'] at h
      rw [List.cons_append, List.find?_cons_of_neg _ hp']
      exact ih h

/-- Claim C2: starting from a state with no ledger entry for the event's
idempotency key, ingesting the same delivery twice (sequentially) creates
exactly one ledger entry and performs exactly one enqueue; the second call
reports `duplicate=true`, returns the entry persisted by the first call,
and changes neither the database nor the queue. -/
theorem persist_and_enqueue_twice_idempotent
    (platform event_type delivery_id : String) (normalized : NormalizedEvent)
    (payload : Json) (s : IngestState)
    (hfresh : s.delivery_logs.find?
        (fun d => d.idempotency_key
          == idempotency_key platform delivery_id event_type normalized.action) = none) :
    (persist_and_enqueue platform event_type normalized payload delivery_id s).2.delivery_logs.length
        = s.delivery_logs.length + 1 ∧
    (persist_and_enqueue platform event_type normalized payload delivery_id s).2.queue.length
        = s.queue.length + 1 ∧
    (persist_and_enqueue platform event_type normalized payload delivery_id s).1.duplicate = false ∧
    (persist_and_enqueue platform event_type normalized payload delivery_id
        (persist_and_enqueue platform event_type normalized payload delivery_id s).2).2
      = (persist_and_enqueue platform event_type normalized payload delivery_id s).2 ∧
    (persist_and_enqueue platform event_type normalized payload delivery_id
        (persist_and_enqueue platform event_type normalized payload delivery_id s).2).1.duplicate
      = true ∧
    (persist_and_enqueue platform event_type normalized payload delivery_id
        (persist_and_enqueue platform event_type normalized payload delivery_id s).2).1.event_id
      = (persist_and_enqueue platform event_type normalized payload delivery_id s).1.event_id := by
  simp only [persist_and_enqueue, hfresh]
  rw [find?_append_of_none _ _ _ hfresh]
  simp

/-- Witness for C2: a concrete GitHub pull-request delivery ingested twice
into an empty store yields one ledger row, one queued job, and a duplicate
marker on the second response. -/
theorem persist_and_enqueue_twice_idempotent_witness :
    (persist_and_enqueue "github" "pull_request"
        { platform := "github", delivery_id := "d1", event_type := "pull_request",
          action := "opened", occurred_at := 0, payload := Json.obj [] }
        (Json.obj []) "d1"
        { webhook_events := [], delivery_logs := [], queue := [], next_id := 1 }).2.delivery_logs.length
        = ([] : List DeliveryLogRec).length + 1 ∧
    (persist_and_enqueue "github" "pull_request"
        { platform := "github", delivery_id := "d1", event_type := "pull_request",
          action := "opened", occurred_at := 0, payload := Json.obj [] }
        (Json.obj []) "d1"
        { webhook_events := [], delivery_logs := [], queue := [], next_id := 1 }).2.queue.length
        = ([] : List (String × Json)).length + 1 ∧
    (persist_and_enqueue "github" "pull_request"
        { platform := "github", delivery_id := "d1", event_type := "pull_request",
          action := "opened", occurred_at := 0, payload := Json.obj [] }
        (Json.obj []) "d1"
        { webhook_events := [], delivery_logs := [], queue := [], next_id := 1 }).1.duplicate = false ∧
    (persist_and_enqueue "github" "pull_request"
        { platform := "github", delivery_id := "d1", event_type := "pull_request",
          action := "opened", occurred_at := 0, payload := Json.obj [] }
        (Json.obj []) "d1"
        (persist_and_enqueue "github" "pull_request"
          { platform := "github", delivery_id := "d1", event_type := "pull_request",
            action := "opened", occurred_at := 0, payload := Json.obj [] }
          (Json.obj []) "d1"
          { webhook_events := [], delivery_logs := [], queue := [], next_id := 1 }).2).2
      = (persist_and_enqueue "github" "pull_request"
          { platform := "github", delivery_id := "d1", event_type := "pull_request",
            action := "opened", occurred_at := 0, payload := Json.obj [] }
          (Json.obj []) "d1"
          { webhook_events := [], delivery_logs := [], queue := [], next_id := 1 }).2 ∧
    (persist_and_enqueue "github" "pull_request"
        { platform := "github", delivery_id := "d1", event_type := "pull_request",
          action := "opened", occurred_at := 0, payload := Json.obj [] }
        (Json.obj []) "d1"
        (persist_and_enqueue "github" "pull_request"
          { platform := "github", delivery_id := "d1", event_type := "pull_request",
            action := "opened", occurred_at := 0, payload := Json.obj [] }
          (Json.obj []) "d1"
          { webhook_events := [], delivery_logs := [], queue := [], next_id := 1 }).2).1.duplicate
      = true ∧
    (persist_and_enqueue "github" "pull_request"
        { platform := "github", delivery_id := "d1", event_type := "pull_request",
          action := "opened", occurred_at := 0, payload := Json.obj [] }
        (Json.obj []) "d1"
        (persist_and_enqueue "github" "pull_request"
          { platform := "github", delivery_id := "d1", event_type := "pull_request",
            action := "opened", occurred_at := 0, payload := Json.obj [] }
          (Json.obj []) "d1"
          { webhook_events := [], delivery_logs := [], queue := [], next_id := 1 }).2).1.event_id
      = (persist_and_enqueue "github" "pull_request"
          { platform := "github", delivery_id := "d1", event_type := "pull_request",
            action := "opened", occurred_at := 0, payload := Json.obj [] }
          (Json.obj []) "d1"
          { webhook_events := [], delivery_logs := [], queue := [], next_id := 1 }).1.event_id :=
  persist_and_enqueue_twice_idempotent "github" "pull_request" "d1"
    { platform := "github", delivery_id := "d1", event_type := "pull_request",
      action := "opened", occurred_at := 0, payload := Json.obj [] }
    (Json.obj []) { webhook_events := [], delivery_logs := [], queue := [], next_id := 1 }
    rfl

/-! ## `services/llm_service.py` — `FallbackLLMProvider` (claims C3, C4)

Each provider call is modelled by its observable outcome: the value the
awaited coroutine would return, or the message of the exception it would
raise. Embedding vectors (`list[float]`) are modelled as exact rationals;
no claim computes on their values. -/

abbrev CallResult (α : Type) := Except String α

abbrev EmbeddingVec := List Rat

/-- `FallbackLLMProvider.generate` loop body: try each provider in order,
remembering the last exception; after the loop raise
`RuntimeError("All LLM providers failed to generate response") from last_exc`.
The error value pairs the `RuntimeError` message with its `__cause__`. -/
def generate_loop (outcomes : List (CallResult String)) (last_exc : Option String) :
    Except (String × Option String) String :=
  match outcomes with
  | [] => .error ("All LLM providers failed to generate response", last_exc)
  | .ok r :: _ => .ok r
  | .error e :: rest => generate_loop rest (some e)

/-- `FallbackLLMProvider.generate` (`last_exc` starts as `None`). -/
def fallback_generate (outcomes : List (CallResult String)) :
    Except (String × Option String) String :=
  generate_loop outcomes none

/-- `FallbackLLMProvider.embed_text` loop body (same shape as `generate`,
with its own terminal message). -/
def embed_loop (outcomes : List (CallResult EmbeddingVec)) (last_exc : Option String) :
    Except (String × Option String) EmbeddingVec :=
  match outcomes with
  | [] => .error ("All LLM providers failed to embed text", last_exc)
  | .ok v :: _ => .ok v
  | .error e :: rest => embed_loop rest (some e)

/-- `FallbackLLMProvider.embed_text`. -/
def fallback_embed (outcomes : List (CallResult EmbeddingVec)) :
    Except (String × Option String) EmbeddingVec :=
  embed_loop outcomes none

theorem generate_loop_all_errors (errs : List String) (e : String) (last : Option String) :
    generate_loop ((errs ++ [e]).map Except.error) last
      = .error ("All LLM providers failed to generate response", some e) := by
  induction errs generalizing last with
  | nil => rfl
  | cons x t ih => simpa [generate_loop] using ih (some x)

theorem embed_loop_all_errors (errs : List String) (e : String) (last : Option String) :
    embed_loop ((errs ++ [e]).map Except.error) last
      = .error ("All LLM providers failed to embed text", some e) := by
  induction errs generalizing last with
  | nil => rfl
  | cons x t ih => simpa [embed_loop] using ih (some x)

theorem generate_loop_first_success (pre : List String) (r : String)
    (rest : List (CallResult String)) (last : Option String) :
    generate_loop (pre.map Except.error ++ Except.ok r :: rest) last = .ok r := by
  induction pre generalizing last with
  | nil => rfl
  | cons x t ih => simpa [generate_loop] using ih (some x)

theorem embed_loop_first_success (pre : List String) (v : EmbeddingVec)
    (rest : List (CallResult EmbeddingVec)) (last : Option String) :
    embed_loop (pre.map Except.error ++ Except.ok v :: rest) last = .ok v := by
  induction pre generalizing last with
  | nil => rfl
  | cons x t ih => simpa [embed_loop] using ih (some x)

/-- Claim C4: `FallbackLLMProvider.generate` / `embed_text` return the
result of the first provider (in list order) that succeeds — all earlier
providers having failed — and when every provider fails they raise a
terminal error whose cause is the last provider's failure. -/
theorem fallback_generate_embed_spec :
    (∀ (pre : List String) (r : String) (rest : List (CallResult String)),
        fallback_generate (pre.map Except.error ++ Except.ok r :: rest) = .ok r) ∧
    (∀ (errs : List String) (e : String),
        fallback_generate ((errs ++ [e]).map Except.error)
          = .error ("All LLM providers failed to generate response", some e)) ∧
    (∀ (pre : List String) (v : EmbeddingVec) (rest : List (CallResult EmbeddingVec)),
        fallback_embed (pre.map Except.error ++ Except.ok v :: rest) = .ok v) ∧
    (∀ (errs : List String) (e : String),
        fallback_embed ((errs ++ [e]).map Except.error)
          = .error ("All LLM providers failed to embed text", some e)) :=
  ⟨fun pre r rest => generate_loop_first_success pre r rest none,
   fun errs e => generate_loop_all_errors errs e none,
   fun pre v rest => embed_loop_first_success pre v rest none,
   fun errs e => embed_loop_all_errors errs e none⟩

/-- One provider's observable streaming behaviour: the tokens its
`stream_generate` yields before it either raises (`failed = true`) or
finishes cleanly (`failed = false`). A provider that raises before its
first token has `tokens = []` and `failed = true`. -/
structure StreamRun where
  tokens : List String
  failed : Bool

/-- `FallbackLLMProvider.stream_generate`: for each provider, yield its
tokens through to the consumer; if it raises (caught by the bare
`except Exception`), continue with the next provider; if it completes,
stop. After the loop, raise `RuntimeError`. The result is the pair of all
tokens the consumer received and whether the stream terminated cleanly
(`false` = it ended by raising `RuntimeError`). -/
def fallback_stream_generate : List StreamRun → List String × Bool
  | [] => ([], false)
  | run :: rest =>
    if run.failed then
      let tail := fallback_stream_generate rest
      (run.tokens ++ tail.1, tail.2)
    else (run.tokens, true)

/-- Counterexample to claim C3 as stated: with a primary provider that
yields one token and then fails mid-stream and a secondary that streams
normally, the consumer receives the secondary's token after the partial
output — the stream does not simply stop. -/
theorem fallback_stream_midstream_counterexample :
    fallback_stream_generate [⟨["a"], true⟩, ⟨["b"], false⟩] = (["a", "b"], true) ∧
    (fallback_stream_generate [⟨["a"], true⟩, ⟨["b"], false⟩]).1 ≠ ["a"] := by
  refine ⟨rfl, by decide⟩

/-- Claim C3 (amended): a provider failure — whether before or after its
first token — falls through to the next provider; already-yielded tokens
are not retracted, so the emitted output is the concatenation of the
tokens of the failing prefix of providers followed by the tokens of the
first provider that completes; if every provider fails, all their tokens
are emitted and the stream terminates by raising. -/
theorem fallback_stream_generate_spec :
    (∀ (pre : List StreamRun) (run : StreamRun) (rest : List StreamRun),
        (∀ x ∈ pre, x.failed = true) → run.failed = false →
        fallback_stream_generate (pre ++ run :: rest)
          = ((pre.map StreamRun.tokens).flatten ++ run.tokens, true)) ∧
    (∀ runs : List StreamRun, (∀ x ∈ runs, x.failed = true) →
        fallback_stream_generate runs = ((runs.map StreamRun.tokens).flatten, false)) := by
  constructor
  · intro pre run rest hpre hrun
    induction pre with
    | nil => simp [fallback_stream_generate, hrun]
    | cons x t ih =>
      have hx : x.failed = true := hpre x (by simp)
      have ht : ∀ y ∈ t, y.failed = true := fun y hy => hpre y (by simp [hy])
      simp [fallback_stream_generate, hx, ih ht]
  · intro runs hruns
    induction runs with
    | nil => rfl
    | cons x t ih =>
      have hx : x.failed = true := hruns x (by simp)
      have ht : ∀ y ∈ t, y.failed = true := fun y hy => hruns y (by simp [hy])
      simp [fallback_stream_generate, hx, ih ht]

/-- Witness for the amended C3: a primary failing after one token followed
by a clean secondary emits both tokens; two all-failing providers emit
their partial tokens and end in the terminal error. -/
theorem fallback_stream_generate_spec_witness :
    fallback_stream_generate [⟨["a"], true⟩, ⟨["b"], false⟩]
      = ((([⟨["a"], true⟩] : List StreamRun).map StreamRun.tokens).flatten ++ ["b"], true) ∧
    fallback_stream_generate [⟨["a"], true⟩, ⟨["c"], true⟩]
      = ((([⟨["a"], true⟩, ⟨["c"], true⟩] : List StreamRun).map StreamRun.tokens).flatten, false) :=
  ⟨fallback_stream_generate_spec.1 [⟨["a"], true⟩] ⟨["b"], false⟩ []
      (by intro x hx; simp at hx; rw [hx]) rfl,
   fallback_stream_generate_spec.2 [⟨["a"], true⟩, ⟨["c"], true⟩]
      (by intro x hx; simp at hx; rcases hx with h | h <;> rw [h])⟩

/-! ## `services/task_queue.py` — `InMemoryTaskQueue` (claim C10) -/

structure QueueJobRec where
  id : Nat
  name : String
  payload : Json

structure QueueStats where
  backend : String
  workers : Int
  pending_jobs : Nat

/-- State of `InMemoryTaskQueue`: `workers` holds `self._workers`, the
worker count clamped in `__init__`; `worker_tasks` models
`self._worker_tasks` (one entry per spawned worker loop). -/
structure InMemoryTaskQueue where
  workers : Int
  queue : List QueueJobRec
  handlers : List (String × Nat)
  worker_tasks : List Nat
  running : Bool

/-- `InMemoryTaskQueue.__init__(workers)`: `self._workers = max(1, workers)`. -/
def initQueue (workers : Int) : InMemoryTaskQueue :=
  { workers := max 1 workers, queue := [], handlers := [], worker_tasks := [],
    running := false }

/-- `InMemoryTaskQueue.start`: no-op when already running; otherwise spawn
one worker loop per index in `range(self._workers)`. -/
def startQueue (q : InMemoryTaskQueue) : InMemoryTaskQueue :=
  if q.running then q
  else
    { q with
      running := true
      worker_tasks := q.worker_tasks ++ List.range q.workers.toNat }

/-- `InMemoryTaskQueue.stats`. -/
def queueStats (q : InMemoryTaskQueue) : QueueStats :=
  { backend := "in_memory", workers := q.workers, pending_jobs := q.queue.length }

/-- Claim C10: the queue clamps its configured worker count to at least
one: for every constructor argument `n` (including `n ≤ 0`), `start`
spawns exactly `max 1 n` worker loops, `stats` reports `workers = max 1 n`
both before and after `start`, and a queue constructed with zero or
negative workers still gets exactly one worker. -/
theorem task_queue_worker_floor (n : Int) :
    (initQueue n).workers = max 1 n ∧
    (startQueue (initQueue n)).worker_tasks.length = (max 1 n).toNat ∧
    (queueStats (initQueue n)).workers = max 1 n ∧
    (queueStats (startQueue (initQueue n))).workers = max 1 n ∧
    1 ≤ (initQueue n).workers ∧
    (n ≤ 0 → (startQueue (initQueue n)).worker_tasks.length = 1) := by
  refine ⟨rfl, ?_, rfl, rfl, le_max_left 1 n, ?_⟩
  · simp [startQueue, initQueue, queueStats]
  · intro hn
    have h1 : max 1 n = 1 := by omega
    simp [startQueue, initQueue, h1]

/-- Witness for C10 at `n = -3`: the queue still spawns exactly one worker
loop and reports one worker. -/
theorem task_queue_worker_floor_witness :
    (startQueue (initQueue (-3))).worker_tasks.length = 1 ∧
    (queueStats (initQueue (-3))).workers = max 1 (-3) :=
  ⟨(task_queue_worker_floor (-3)).2.2.2.2.2 (by decide),
   (task_queue_worker_floor (-3)).2.2.1⟩

/-! ## String helpers for the Python operations used by the services

Substring containment (`sub in s`), `str.strip`-style trimming of a given
character, index search, and the `\b(...)\b` word-boundary regex used by
`_categorize_pr`, all over the character lists underlying `String`. -/

/-- Does `sub` occur at the head of `s`? (`str.startswith` on char lists.) -/
def charsLead : List Char → List Char → Bool
  | [], _ => true
  | _ :: _, [] => false
  | a :: as, b :: bs => a == b && charsLead as bs

/-- Does `s` contain `sub` anywhere? (Python's `sub in s`.) -/
def charsHold (sub : List Char) : List Char → Bool
  | [] => charsLead sub []
  | c :: rest => charsLead sub (c :: rest) || charsHold sub (rest)

/-- Python `sub in s` on strings. -/
def pyIn (sub s : String) : Bool := charsHold sub.data s.data

/-- Match `sub` at the head of `s`, returning the remainder on success. -/
def charsLeadRem : List Char → List Char → Option (List Char)
  | [], s => some s
  | _ :: _, [] => none
  | a :: as, b :: bs => if a == b then charsLeadRem as bs else none

/-- A regex word character (`\w`): ASCII letters, digits, underscore.
(Python's `re` is Unicode-aware; the keyword lists matched here are ASCII,
so the boundary test only needs the ASCII classes.) -/
def isWordChar (c : Char) : Bool := c.isAlphanum || c == '_'

/-- Does word `w` match at the head of `s` with `\b` boundaries on both
sides, `before` being the character immediately left of this position? -/
def wordAt (w : List Char) (before : Option Char) (s : List Char) : Bool :=
  match charsLeadRem w s with
  | none => false
  | some rest =>
    (match before with
     | none => true
     | some c => !isWordChar c) &&
    (match rest with
     | [] => true
     | c :: _ => !isWordChar c)

/-- `re.search` of `\bw\b`: try the match at every position. -/
def wordSearch (w : List Char) (before : Option Char) : List Char → Bool
  | [] => wordAt w before []
  | c :: rest => wordAt w before (c :: rest) || wordSearch w (some c) rest

/-- `re.search(r"\b(add|implement|introduce|create|feat)\b", title_l)`. -/
def featureRegexHit (title_l : String) : Bool :=
  ["add", "implement", "introduce", "create", "feat"].any
    (fun w => wordSearch w.data none title_l.data)

/-- Python `str.lower()`. Lean's `Char.toLower` lower-cases the ASCII
range, which covers every keyword comparison the services perform; it is
defined by structural recursion so that concrete titles evaluate. -/
def pyLower (s : String) : String := String.mk (s.data.map Char.toLower)

/-- Python `str()` on a JSON value. Only scalar renderings are relied on by
the claims; composite values never reach the `str()` call sites considered
here, so their renderings are abbreviated placeholders. -/
def Json.pystr : Json → String
  | .str s => s
  | .nullj => "None"
  | .bool b => if b then "True" else "False"
  | .num n => toString n
  | .arr _ => "[...]"
  | .obj _ => "\x7b...\x7d"

/-! ## `services/review_service.py` — `_categorize_pr` (claim C7) -/

/-- `ReviewService._categorize_pr`: ordered first-match-wins keyword rules
over the lower-cased PR title (and, for docs, the joined lower-cased file
paths). -/
def categorize_pr (title : String) (files : List Json) : String :=
  let title_l := pyLower title
  let file_paths :=
    " ".intercalate (files.map (fun item => pyLower (item.getD "filename" (.str "")).pystr))
  if ["fix", "bug", "hotfix"].any (fun w => pyIn w title_l) then "fix"
  else if ["refactor", "cleanup"].any (fun w => pyIn w title_l) then "refactor"
  else if ["test", "spec"].any (fun w => pyIn w title_l) then "test"
  else if (["docs", "readme", "documentation"].any (fun w => pyIn w title_l))
      || pyIn "docs/" file_paths then "docs"
  else if ["chore", "ci", "build", "deps"].any (fun w => pyIn w title_l) then "chore"
  else if featureRegexHit title_l then "feature"
  else "mixed"

/-- Claim C7: `_categorize_pr` evaluates its rules in the fixed order
fix > refactor > test > docs > chore > feature-regex > "mixed" with the
first matching rule winning; in particular any title containing a fix
keyword — whether or not it also contains a feature keyword — classifies
as "fix". -/
theorem categorize_pr_order (title : String) (files : List Json) :
    (["fix", "bug", "hotfix"].any (fun w => pyIn w (pyLower title)) = true →
        categorize_pr title files = "fix") ∧
    (["fix", "bug", "hotfix"].any (fun w => pyIn w (pyLower title)) = false →
     ["refactor", "cleanup"].any (fun w => pyIn w (pyLower title)) = true →
        categorize_pr title files = "refactor") ∧
    (["fix", "bug", "hotfix"].any (fun w => pyIn w (pyLower title)) = false →
     ["refactor", "cleanup"].any (fun w => pyIn w (pyLower title)) = false →
     ["test", "spec"].any (fun w => pyIn w (pyLower title)) = true →
        categorize_pr title files = "test") ∧
    (["fix", "bug", "hotfix"].any (fun w => pyIn w (pyLower title)) = false →
     ["refactor", "cleanup"].any (fun w => pyIn w (pyLower title)) = false →
     ["test", "spec"].any (fun w => pyIn w (pyLower title)) = false →
     ((["docs", "readme", "documentation"].any (fun w => pyIn w (pyLower title)))
       || pyIn "docs/"
            (" ".intercalate
              (files.map (fun item => pyLower (item.getD "filename" (.str "")).pystr)))) = true →
        categorize_pr title files = "docs") ∧
    (["fix", "bug", "hotfix"].any (fun w => pyIn w (pyLower title)) = false →
     ["refactor", "cleanup"].any (fun w => pyIn w (pyLower title)) = false →
     ["test", "spec"].any (fun w => pyIn w (pyLower title)) = false →
     ((["docs", "readme", "documentation"].any (fun w => pyIn w (pyLower title)))
       || pyIn "docs/"
            (" ".intercalate
              (files.map (fun item => pyLower (item.getD "filename" (.str "")).pystr)))) = false →
     ["chore", "ci", "build", "deps"].any (fun w => pyIn w (pyLower title)) = true →
        categorize_pr title files = "chore") ∧
    (["fix", "bug", "hotfix"].any (fun w => pyIn w (pyLower title)) = false →
     ["refactor", "cleanup"].any (fun w => pyIn w (pyLower title)) = false →
     ["test", "spec"].any (fun w => pyIn w (pyLower title)) = false →
     ((["docs", "readme", "documentation"].any (fun w => pyIn w (pyLower title)))
       || pyIn "docs/"
            (" ".intercalate
              (files.map (fun item => pyLower (item.getD "filename" (.str "")).pystr)))) = false →
     ["chore", "ci", "build", "deps"].any (fun w => pyIn w (pyLower title)) = false →
     featureRegexHit (pyLower title) = true →
        categorize_pr title files = "feature") ∧
    (["fix", "bug", "hotfix"].any (fun w => pyIn w (pyLower title)) = false →
     ["refactor", "cleanup"].any (fun w => pyIn w (pyLower title)) = false →
     ["test", "spec"].any (fun w => pyIn w (pyLower title)) = false →
     ((["docs", "readme", "documentation"].any (fun w => pyIn w (pyLower title)))
       || pyIn "docs/"
            (" ".intercalate
              (files.map (fun item => pyLower (item.getD "filename" (.str "")).pystr)))) = false →
     ["chore", "ci", "build", "deps"].any (fun w => pyIn w (pyLower title)) = false →
     featureRegexHit (pyLower title) = false →
        categorize_pr title files = "mixed") := by
  refine ⟨?_, ?_, ?_, ?_, ?_, ?_, ?_⟩
  · intro h1
    simp only [categorize_pr]; rw [h1]; simp
  · intro h1 h2
    simp only [categorize_pr]; rw [h1, h2]; simp
  · intro h1 h2 h3
    simp only [categorize_pr]; rw [h1, h2, h3]; simp
  · intro h1 h2 h3 h4
    simp only [categorize_pr]; rw [h1, h2, h3, h4]; simp
  · intro h1 h2 h3 h4 h5
    simp only [categorize_pr]; rw [h1, h2, h3, h4, h5]; simp
  · intro h1 h2 h3 h4 h5 h6
    simp only [categorize_pr]; rw [h1, h2, h3, h4, h5, h6]; simp
  · intro h1 h2 h3 h4 h5 h6
    simp only [categorize_pr]; rw [h1, h2, h3, h4, h5, h6]; simp

/-- Witness for C7: the title "Fix crash and add feature flag" contains
both the fix keyword "fix" and the feature-regex keyword "add", and it
classifies as "fix" because the fix rule is evaluated first. -/
theorem categorize_pr_order_witness :
    (["fix", "bug", "hotfix"].any (fun w => pyIn w (pyLower "Fix crash and add feature flag"))
        = true ∧
     featureRegexHit (pyLower "Fix crash and add feature flag") = true) ∧
    categorize_pr "Fix crash and add feature flag" [] = "fix" :=
  ⟨⟨by decide, by decide⟩,
   (categorize_pr_order "Fix crash and add feature flag" []).1 (by decide)⟩

/-! ## `services/review_service.py` — `_extract_json` and
`_generate_suggestions` (claim C9)

`json.loads` is standard-library code, not part of this repository; it is
passed in as an oracle `loads` (the parse result, or the `JSONDecodeError`
it would raise). -/

/-- Python `str.strip(c)`: remove `c` from both ends. -/
def stripChars (c : Char) (l : List Char) : List Char :=
  ((l.dropWhile (· == c)).reverse.dropWhile (· == c)).reverse

/-- Index of the first occurrence of `c` (`str.find` on a single char). -/
def firstIdxOf (c : Char) : List Char → Option Nat
  | [] => none
  | x :: xs => if x == c then some 0 else (firstIdxOf c xs).map (· + 1)

/-- Index of the last occurrence of `c` (`str.rfind` on a single char). -/
def lastIdxOf (c : Char) (l : List Char) : Option Nat :=
  (firstIdxOf c l.reverse).map (fun i => l.length - 1 - i)

/-- `ReviewService._extract_json`: trim, strip code fences (and a leading
`json` language tag), then slice from the first `[` to the last `]` when
that span is non-trivial. -/
def extract_json (raw : String) : String :=
  let raw := raw.trim
  let raw :=
    if charsLead ("\x60\x60\x60").data raw.data then
      let stripped := String.mk (stripChars '\x60' raw.data)
      if charsLead ("json").data (pyLower stripped).data then
        String.mk (stripped.data.drop 4)
      else stripped
    else raw
  match firstIdxOf '[' raw.data, lastIdxOf ']' raw.data with
  | some start, some stop =>
      if start < stop then String.mk ((raw.data.drop start).take (stop + 1 - start))
      else raw
  | _, _ => raw

structure ReviewSuggestion where
  file_path : Option String := none
  title : String
  details : String
  severity : String := "medium"

def Json.isObj : Json → Bool
  | .obj _ => true
  | _ => false

/-- `ReviewSuggestion(...)` construction for one parsed dict entry:
`str()` of title/details (with the source's defaults), `str(...).lower()`
of severity, and pydantic validation of the `severity` literal and the
`str | None` typed `file_path`, modelled as failure. -/
def validate_suggestion (item : Json) : Except String ReviewSuggestion :=
  let fpv : Except String (Option String) :=
    match item.getN "file_path" with
    | .nullj => .ok none
    | .str s => .ok (some s)
    | _ => .error "ValidationError: file_path"
  let sev := pyLower (item.getD "severity" (.str "medium")).pystr
  match fpv with
  | .error e => .error e
  | .ok fpo =>
    if sev = "low" ∨ sev = "medium" ∨ sev = "high" then
      .ok { file_path := fpo,
            title := (item.getD "title" (.str "Review suggestion")).pystr,
            details := (item.getD "details" (.str "No details provided.")).pystr,
            severity := sev }
    else .error "ValidationError: severity"

/-- The `for item in parsed[:5]` loop: skip non-dict items (`continue`); a
validation failure raises out of the loop (caught by the enclosing
`except`). -/
def build_suggestions : List Json → Except String (List ReviewSuggestion)
  | [] => .ok []
  | item :: rest =>
    match item with
    | .obj fl =>
      match validate_suggestion (.obj fl) with
      | .error e => .error e
      | .ok sug =>
        match build_suggestions rest with
        | .error e => .error e
        | .ok sugs => .ok (sug :: sugs)
    | _ => build_suggestions rest

/-- The two fixed heuristic fallback suggestions returned after the
`except` (or when the parsed list produced nothing); the first one points
at the first changed file when there is one. -/
def fallback_suggestions (files : List Json) : List ReviewSuggestion :=
  let fallback_file : Option String :=
    match files with
    | [] => none
    | f :: _ =>
      match f.get? "filename" with
      | none => none
      | some .nullj => none
      | some j => some j.pystr
  [ { file_path := fallback_file, title := "Validate edge cases",
      details := "Review boundary conditions and error handling for modified paths.",
      severity := "medium" },
    { file_path := none, title := "Add or update tests",
      details := "Ensure behavior changes are covered by tests to prevent regressions.",
      severity := "medium" } ]

/-- `ReviewService._generate_suggestions`: ask the provider (oracle `gen`),
defensively extract and parse JSON (oracle `loads`), keep at most the first
five entries; on any failure or an empty result, return the fixed
heuristic fallback pair. -/
def generate_suggestions (gen : Except String String)
    (loads : String → Except String Json) (files : List Json) :
    List ReviewSuggestion :=
  let attempt : Except String (List ReviewSuggestion) :=
    match gen with
    | .error e => .error e
    | .ok raw =>
      match loads (extract_json raw) with
      | .error e => .error e
      | .ok (.arr items) => build_suggestions (items.take 5)
      | .ok _ => .ok []
  match attempt with
  | .ok sugs => if !sugs.isEmpty then sugs else fallback_suggestions files
  | .error _ => fallback_suggestions files

theorem build_suggestions_length_le (l : List Json) :
    ∀ s, build_suggestions l = .ok s → s.length ≤ l.length := by
  induction l with
  | nil => intro s hs; simp [build_suggestions] at hs; simp [← hs]
  | cons item rest ih =>
    intro s hs
    cases item with
    | obj fl =>
      simp only [build_suggestions] at hs
      cases hv : validate_suggestion (.obj fl) with
      | error e => rw [hv] at hs; exact absurd hs (by simp)
      | ok sug =>
        rw [hv] at hs
        cases hb : build_suggestions rest with
        | error e => rw [hb] at hs; exact absurd hs (by simp)
        | ok sugs =>
          rw [hb] at hs
          simp only [Except.ok.injEq] at hs
          subst hs
          simpa using Nat.succ_le_succ (ih sugs hb)
    | nullj => exact Nat.le_succ_of_le (ih s hs)
    | bool b => exact Nat.le_succ_of_le (ih s hs)
    | num n => exact Nat.le_succ_of_le (ih s hs)
    | str t => exact Nat.le_succ_of_le (ih s hs)
    | arr items => exact Nat.le_succ_of_le (ih s hs)

theorem build_suggestions_all_ok (l : List Json)
    (h : ∀ x ∈ l, x.isObj = true ∧ (validate_suggestion x).isOk = true) :
    ∃ s, build_suggestions l = .ok s ∧ s.length = l.length := by
  induction l with
  | nil => exact ⟨[], rfl, rfl⟩
  | cons item rest ih =>
    obtain ⟨hobj, hok⟩ := h item (by simp)
    obtain ⟨s, hs, hlen⟩ := ih (fun x hx => h x (by simp [hx]))
    cases item with
    | obj fl =>
      cases hv : validate_suggestion (.obj fl) with
      | error e => rw [hv] at hok; simp [Except.isOk, Except.toBool] at hok
      | ok sug =>
        exact ⟨sug :: s, by simp [build_suggestions, hv, hs], by simp [hlen]⟩
    | nullj => simp [Json.isObj] at hobj
    | bool b => simp [Json.isObj] at hobj
    | num n => simp [Json.isObj] at hobj
    | str t => simp [Json.isObj] at hobj
    | arr items => simp [Json.isObj] at hobj

/-- Claim C9: `_generate_suggestions` never returns more than 5
suggestions; when the provider's output parses to a 7-entry list of valid
dict entries it returns exactly 5; and whenever generation fails, the text
does not parse, or the parsed result is empty, it returns exactly the two
fixed heuristic fallback suggestions titled "Validate edge cases" and
"Add or update tests". -/
theorem generate_suggestions_spec :
    (∀ (gen : Except String String) (loads : String → Except String Json) (files : List Json),
        (generate_suggestions gen loads files).length ≤ 5) ∧
    (∀ (raw : String) (loads : String → Except String Json) (files : List Json)
        (items : List Json),
        loads (extract_json raw) = .ok (.arr items) →
        items.length = 7 →
        (∀ x ∈ items.take 5, x.isObj = true ∧ (validate_suggestion x).isOk = true) →
        (generate_suggestions (.ok raw) loads files).length = 5) ∧
    (∀ (e : String) (loads : String → Except String Json) (files : List Json),
        generate_suggestions (.error e) loads files = fallback_suggestions files) ∧
    (∀ (raw e : String) (loads : String → Except String Json) (files : List Json),
        loads (extract_json raw) = .error e →
        generate_suggestions (.ok raw) loads files = fallback_suggestions files) ∧
    (∀ (raw : String) (loads : String → Except String Json) (files : List Json),
        loads (extract_json raw) = .ok (.arr []) →
        generate_suggestions (.ok raw) loads files = fallback_suggestions files) ∧
    (∀ files : List Json,
        (fallback_suggestions files).map (fun s => s.title)
          = ["Validate edge cases", "Add or update tests"]) := by
  refine ⟨?_, ?_, ?_, ?_, ?_, ?_⟩
  · intro gen loads files
    cases gen with
    | error e => simp [generate_suggestions, fallback_suggestions]
    | ok raw =>
      simp only [generate_suggestions]
      cases hl : loads (extract_json raw) with
      | error e => simp [fallback_suggestions]
      | ok parsed =>
        cases parsed with
        | arr items =>
          cases hb : build_suggestions (items.take 5) with
          | error e => simp [hb, fallback_suggestions]
          | ok sugs =>
            have hle : sugs.length ≤ 5 := by
              have := build_suggestions_length_le (items.take 5) sugs hb
              calc sugs.length ≤ (items.take 5).length := this
                _ ≤ 5 := by simp [List.length_take]
            simp only [hb]
            by_cases he : sugs.isEmpty
            · simp [he, fallback_suggestions]
            · simpa [he] using hle
        | nullj => simp [fallback_suggestions]
        | bool b => simp [fallback_suggestions]
        | num n => simp [fallback_suggestions]
        | str t => simp [fallback_suggestions]
        | obj fl => simp [fallback_suggestions]
  · intro raw loads files items hl hlen hvalid
    obtain ⟨s, hs, hslen⟩ := build_suggestions_all_ok (items.take 5) hvalid
    have hs5 : s.length = 5 := by
      rw [hslen]; simp [List.length_take, hlen]
    have hne : s.isEmpty = false := by
      cases s with
      | nil => simp at hs5
      | cons a t => rfl
    simp [generate_suggestions, hl, hs, hne, hs5]
  · intro e loads files
    simp [generate_suggestions]
  · intro raw e loads files hl
    simp [generate_suggestions, hl]
  · intro raw loads files hl
    simp [generate_suggestions, hl, build_suggestions]
  · intro files
    simp [fallback_suggestions]

/-- Witness for C9: a constant parser returning a well-formed 7-entry list
of dicts yields exactly 5 suggestions; a parser that always raises (the
non-JSON case) yields the 2-element fallback. -/
theorem generate_suggestions_spec_witness :
    (generate_suggestions (.ok "x")
        (fun _ => .ok (.arr (List.replicate 7 (Json.obj [("title", Json.str "T")]))))
        []).length = 5 ∧
    generate_suggestions (.ok "not json") (fun _ => .error "JSONDecodeError") []
      = fallback_suggestions [] ∧
    (generate_suggestions (.error "boom")
        (fun _ => .ok (.arr [])) []).length ≤ 5 :=
  ⟨generate_suggestions_spec.2.1 "x"
      (fun _ => .ok (.arr (List.replicate 7 (Json.obj [("title", Json.str "T")]))))
      [] (List.replicate 7 (Json.obj [("title", Json.str "T")]))
      rfl (by decide) (by decide),
   generate_suggestions_spec.2.2.2.1 "not json" "JSONDecodeError"
      (fun _ => .error "JSONDecodeError") [] rfl,
   generate_suggestions_spec.1 (.error "boom") (fun _ => .ok (.arr [])) []⟩

/-! ## `services/event_normalizer.py` (claim C8)

`datetime.fromisoformat` is standard-library code; it is passed in as the
oracle `parseIso` (the parsed instant, or `none` for the `ValueError` it
would raise), and `datetime.now(tz=...)` as the value `now`. -/

/-- A present payload value coerced into an `int | None` pydantic field:
`null` (Python `None`) stays `none`, numbers coerce; other present values
would make pydantic raise, which no claim exercises. -/
def Json.asInt : Json → Option Int
  | .num n => some n
  | _ => none

/-- A present payload value coerced into a `str | None` pydantic field. -/
def Json.asStr : Json → Option String
  | .str s => some s
  | _ => none

/-- The shared `occurred_at` computation: start from `now`, and when the
chosen raw value is a string, try `fromisoformat` on it with `Z` replaced
by `+00:00`, falling back to `now` on `ValueError`. -/
def occurredAtFrom (raw : Json) (now : Int) (parseIso : String → Option Int) : Int :=
  match raw with
  | .str s =>
    match parseIso (s.replace "Z" "+00:00") with
    | some t => t
    | none => now
  | _ => now

/-- `normalize_github_event`. -/
def normalize_github_event (event_type delivery_id : String) (payload : Json)
    (now : Int) (parseIso : String → Option Int) : NormalizedEvent :=
  let repo := payload.getD "repository" (.obj [])
  let pr := payload.getD "pull_request" (.obj [])
  let issue := payload.getD "issue" (.obj [])
  let sender := payload.getD "sender" (.obj [])
  let installation := payload.getD "installation" (.obj [])
  let occurred_at_raw :=
    Json.pyOr (payload.getN "timestamp")
      (Json.pyOr (pr.getN "updated_at")
        (Json.pyOr (pr.getN "created_at")
          (Json.pyOr (issue.getN "updated_at") (issue.getN "created_at"))))
  { platform := "github"
    delivery_id := delivery_id
    event_type := event_type
    action := (payload.getD "action" (.str "unknown")).pystr
    installation_id := (installation.get? "id").bind Json.asInt
    repository_id := (repo.get? "id").bind Json.asInt
    repository_owner := ((repo.getD "owner" (.obj [])).get? "login").bind Json.asStr
    repository_name := (repo.get? "name").bind Json.asStr
    repository_full_name := (repo.get? "full_name").bind Json.asStr
    pr_number := (pr.get? "number").bind Json.asInt
    pr_title := (pr.get? "title").bind Json.asStr
    issue_number := (issue.get? "number").bind Json.asInt
    issue_title := (issue.get? "title").bind Json.asStr
    sender_login := (sender.get? "login").bind Json.asStr
    head_sha := ((pr.getD "head" (.obj [])).get? "sha").bind Json.asStr
    occurred_at := occurredAtFrom occurred_at_raw now parseIso
    payload := payload }

/-- Truthiness of an `int | None` value (`if pr_number:` in Python). -/
def optIntTruthy : Option Int → Bool
  | some n => n != 0
  | none => false

/-- `normalize_gitlab_event`. -/
def normalize_gitlab_event (event_type delivery_id : String) (payload : Json)
    (now : Int) (parseIso : String → Option Int) : NormalizedEvent :=
  let project := payload.getD "project" (.obj [])
  let attrs := payload.getD "object_attributes" (.obj [])
  let user := payload.getD "user" (.obj [])
  let normalized_event_type := ((pyLower event_type).replace " hook" "").replace "_" ""
  let action :=
    (Json.pyOr (attrs.getN "action") (Json.pyOr (attrs.getN "state") (.str "unknown"))).pystr
  let pr_number :=
    if ["mergerequest", "merge request"].contains normalized_event_type then
      (attrs.get? "iid").bind Json.asInt
    else none
  let issue_number :=
    if ["issue", "note"].contains normalized_event_type then
      (attrs.get? "iid").bind Json.asInt
    else none
  let occurred_at_raw := Json.pyOr (attrs.getN "updated_at") (attrs.getN "created_at")
  { platform := "gitlab"
    delivery_id := delivery_id
    event_type := normalized_event_type
    action := action
    installation_id := none
    repository_id := (project.get? "id").bind Json.asInt
    repository_owner := (project.get? "namespace").bind Json.asStr
    repository_name := (project.get? "name").bind Json.asStr
    repository_full_name := (project.get? "path_with_namespace").bind Json.asStr
    pr_number := pr_number
    pr_title := if optIntTruthy pr_number then (attrs.get? "title").bind Json.asStr else none
    issue_number := issue_number
    issue_title := if optIntTruthy issue_number then (attrs.get? "title").bind Json.asStr else none
    sender_login := (Json.pyOr (user.getN "username") (user.getN "name")).asStr
    head_sha := ((attrs.getD "last_commit" (.obj [])).get? "id").bind Json.asStr
    occurred_at := occurredAtFrom occurred_at_raw now parseIso
    payload := payload }

/-- Claim C8: normalizing a payload missing every optional field never
raises (the embeddings are total functions evaluated here at the empty
payload): all optional fields of the resulting event are null, the action
defaults to "unknown", and `occurred_at` defaults to the current time; and
on any timestamp parse failure (`parseIso` rejecting every string) the
current-time fallback is taken for every payload. -/
theorem normalize_missing_fields_defaults (event_type delivery_id : String)
    (now : Int) (parseIso : String → Option Int) :
    (∀ ev, ev = normalize_github_event event_type delivery_id (Json.obj []) now parseIso →
        ev.installation_id = none ∧ ev.repository_id = none ∧
        ev.repository_owner = none ∧ ev.repository_name = none ∧
        ev.repository_full_name = none ∧ ev.pr_number = none ∧
        ev.pr_title = none ∧ ev.issue_number = none ∧ ev.issue_title = none ∧
        ev.sender_login = none ∧ ev.head_sha = none ∧
        ev.action = "unknown" ∧ ev.occurred_at = now) ∧
    (∀ ev, ev = normalize_gitlab_event event_type delivery_id (Json.obj []) now parseIso →
        ev.installation_id = none ∧ ev.repository_id = none ∧
        ev.repository_owner = none ∧ ev.repository_name = none ∧
        ev.repository_full_name = none ∧ ev.pr_number = none ∧
        ev.pr_title = none ∧ ev.issue_number = none ∧ ev.issue_title = none ∧
        ev.sender_login = none ∧ ev.head_sha = none ∧
        ev.action = "unknown" ∧ ev.occurred_at = now) ∧
    ((∀ t, parseIso t = none) → ∀ payload : Json,
        (normalize_github_event event_type delivery_id payload now parseIso).occurred_at = now ∧
        (normalize_gitlab_event event_type delivery_id payload now parseIso).occurred_at = now) := by
  refine ⟨?_, ?_, ?_⟩
  · intro ev hev
    subst hev
    refine ⟨rfl, rfl, rfl, rfl, rfl, rfl, rfl, rfl, rfl, rfl, rfl, rfl, ?_⟩
    simp [normalize_github_event, occurredAtFrom, Json.getD, Json.getN, Json.get?,
      Json.pyOr, Json.truthy]
  · intro ev hev
    subst hev
    refine ⟨rfl, rfl, rfl, rfl, rfl, ?_, ?_, ?_, ?_, rfl, rfl, ?_, ?_⟩
    · simp [normalize_gitlab_event, Json.getD, Json.getN, Json.get?]
    · simp [normalize_gitlab_event, Json.getD, Json.getN, Json.get?, optIntTruthy]
    · simp [normalize_gitlab_event, Json.getD, Json.getN, Json.get?]
    · simp [normalize_gitlab_event, Json.getD, Json.getN, Json.get?, optIntTruthy]
    · simp [normalize_gitlab_event, Json.getD, Json.getN, Json.get?, Json.pyOr,
        Json.truthy, Json.pystr]
    · simp [normalize_gitlab_event, occurredAtFrom, Json.getD, Json.getN, Json.get?,
        Json.pyOr, Json.truthy]
  · intro hparse payload
    constructor
    · simp only [normalize_github_event]
      cases hraw : Json.pyOr (payload.getN "timestamp")
          (Json.pyOr ((payload.getD "pull_request" (.obj [])).getN "updated_at")
            (Json.pyOr ((payload.getD "pull_request" (.obj [])).getN "created_at")
              (Json.pyOr ((payload.getD "issue" (.obj [])).getN "updated_at")
                ((payload.getD "issue" (.obj [])).getN "created_at")))) with
      | str s => simp [occurredAtFrom, hraw, hparse]
      | nullj => simp [occurredAtFrom, hraw]
      | bool b => simp [occurredAtFrom, hraw]
      | num n => simp [occurredAtFrom, hraw]
      | arr items => simp [occurredAtFrom, hraw]
      | obj fields => simp [occurredAtFrom, hraw]
    · simp only [normalize_gitlab_event]
      cases hraw : Json.pyOr ((payload.getD "object_attributes" (.obj [])).getN "updated_at")
          ((payload.getD "object_attributes" (.obj [])).getN "created_at") with
      | str s => simp [occurredAtFrom, hraw, hparse]
      | nullj => simp [occurredAtFrom, hraw]
      | bool b => simp [occurredAtFrom, hraw]
      | num n => simp [occurredAtFrom, hraw]
      | arr items => simp [occurredAtFrom, hraw]
      | obj fields => simp [occurredAtFrom, hraw]

/-- Witness for C8 at a concrete empty payload with an always-failing
parser and `now = 42`: both normalizers default every optional field to
null and `occurred_at` to 42. -/
theorem normalize_missing_fields_defaults_witness :
    ((normalize_github_event "pull_request" "d1" (Json.obj []) 42 (fun _ => none)).occurred_at = 42 ∧
     (normalize_github_event "pull_request" "d1" (Json.obj []) 42 (fun _ => none)).pr_number = none ∧
     (normalize_github_event "pull_request" "d1" (Json.obj []) 42 (fun _ => none)).action = "unknown") ∧
    ((normalize_gitlab_event "Merge Request Hook" "d2" (Json.obj []) 42 (fun _ => none)).occurred_at = 42 ∧
     (normalize_gitlab_event "Merge Request Hook" "d2" (Json.obj []) 42 (fun _ => none)).sender_login = none) :=
  ⟨⟨((normalize_missing_fields_defaults "pull_request" "d1" 42 (fun _ => none)).1
        _ rfl).2.2.2.2.2.2.2.2.2.2.2.2,
    ((normalize_missing_fields_defaults "pull_request" "d1" 42 (fun _ => none)).1
        _ rfl).2.2.2.2.2.1,
    ((normalize_missing_fields_defaults "pull_request" "d1" 42 (fun _ => none)).1
        _ rfl).2.2.2.2.2.2.2.2.2.2.2.1⟩,
   ⟨((normalize_missing_fields_defaults "Merge Request Hook" "d2" 42 (fun _ => none)).2.1
        _ rfl).2.2.2.2.2.2.2.2.2.2.2.2,
    ((normalize_missing_fields_defaults "Merge Request Hook" "d2" 42 (fun _ => none)).2.1
        _ rfl).2.2.2.2.2.2.2.2.2.1⟩⟩

/-! ## `services/webhook_processor.py` — shared processor state (claims C1, C6) -/

structure ProcDeliveryRec where
  id : Nat
  status : String
  error_message : Option String
  normalized_event : NormalizedEvent

structure ReviewRunRec where
  delivery_log_id : Nat
  installation_id : Option Int
  platform : String
  run_type : String
  status : String
  provider : String
  model_name : String
  repository_full_name : Option String
  issue_number : Option Int
  actor_login : Option String
  result_json : Json

/-- Database-and-outbound state visible to the Delivery Processor: the
`DeliveryLog` table, the `ReviewRun` table, and the external code-host
calls issued (marker, body). -/
structure ProcState where
  ledger : List ProcDeliveryRec
  review_runs : List ReviewRunRec
  external_calls : List (String × String)

/-- `session.get(DeliveryLog, id)`. -/
def getEntry (ledger : List ProcDeliveryRec) (id : Nat) : Option ProcDeliveryRec :=
  ledger.find? (fun e => e.id == id)

/-- Field update of the row with the given id (a commit of mutated ORM
attributes). -/
def setEntry (ledger : List ProcDeliveryRec) (id : Nat)
    (f : ProcDeliveryRec → ProcDeliveryRec) : List ProcDeliveryRec :=
  ledger.map (fun e => if e.id == id then f e else e)

/-- `WebhookProcessor.process_delivery_log`: the queue-handler entry point.
`proc` stands for the `_process` dispatch body run in a fresh session — it
returns the state after its own commits together with the message of the
exception it raised, if any (caught here and recorded as `failed`). -/
def process_delivery_log (proc : ProcState → ProcState × Option String)
    (delivery_log_id : Nat) (s : ProcState) : ProcState :=
  match getEntry s.ledger delivery_log_id with
  | none => s
  | some entry =>
    if entry.status = "done" then s
    else
      let led := setEntry s.ledger delivery_log_id (fun e => { e with status := "processing", error_message := none })
      let s1 : ProcState := { s with ledger := led }
      let r := proc s1
      match r.2 with
      | none => r.1
      | some msg =>
          let led2 := setEntry r.1.ledger delivery_log_id (fun e => { e with status := "failed", error_message := some msg })
          { r.1 with ledger := led2 }

/-- Claim C6: for an id with no matching ledger entry, and for an entry
already in status "done", `process_delivery_log` is an identity on the
whole state — no dispatch runs, no row changes, no external calls — for
every possible dispatch body `proc`. -/
theorem process_delivery_log_done_noop
    (proc : ProcState → ProcState × Option String) (delivery_log_id : Nat) (s : ProcState) :
    (getEntry s.ledger delivery_log_id = none →
        process_delivery_log proc delivery_log_id s = s) ∧
    (∀ entry, getEntry s.ledger delivery_log_id = some entry → entry.status = "done" →
        process_delivery_log proc delivery_log_id s = s) := by
  constructor
  · intro h
    simp [process_delivery_log, h]
  · intro entry h hdone
    simp [process_delivery_log, h, hdone]

/-- Concrete sample entry and state used by the C6 witness. -/
def sampleDoneEntry : ProcDeliveryRec :=
  { id := 1, status := "done", error_message := none,
    normalized_event :=
      { platform := "github", delivery_id := "d", event_type := "issues",
        action := "opened", occurred_at := 0, payload := Json.obj [] } }

def sampleDoneState : ProcState :=
  { ledger := [sampleDoneEntry], review_runs := [], external_calls := [] }

def emptyProcState : ProcState :=
  { ledger := [], review_runs := [], external_calls := [] }

/-- Witness for C6: a one-row state whose entry is already "done" is left
untouched (with an arbitrary concrete dispatch body), and a missing id is
a no-op on an empty state. -/
theorem process_delivery_log_done_noop_witness :
    process_delivery_log (fun st => (st, none)) 1 sampleDoneState = sampleDoneState ∧
    process_delivery_log (fun st => (st, none)) 7 emptyProcState = emptyProcState :=
  ⟨(process_delivery_log_done_noop (fun st => (st, none)) 1 sampleDoneState).2
      sampleDoneEntry rfl rfl,
   (process_delivery_log_done_noop (fun st => (st, none)) 7 emptyProcState).1 rfl⟩

/-! ## `services/review_service.py` / `services/webhook_processor.py` —
issue helpers and the issue/comment dispatch paths (claim C1) -/

/-- Python `a or b` for an optional string against a literal default. -/
def pyOrStrOpt (a : Option String) (b : String) : String :=
  match a with
  | some s => if s = "" then b else s
  | none => b

/-- Truthiness of a `str | None` value. -/
def optStrTruthy : Option String → Bool
  | some s => s != ""
  | none => false

/-- Python `a or b` on `int | None` values. -/
def pyOrOptInt (a b : Option Int) : Option Int := if optIntTruthy a then a else b

/-- `feature_flags.get(key, default)`. -/
def lookupFlag (flags : List (String × Bool)) (k : String) (dflt : Bool) : Bool :=
  match flags.find? (fun kv => kv.1 == k) with
  | some kv => kv.2
  | none => dflt

/-- `ReviewService.summarize_issue`: the LLM call is the oracle `gen`; any
exception degrades to the fixed heuristic three-bullet summary. -/
def summarize_issue (event : NormalizedEvent) (gen : Except String String) : String :=
  let issue_title := pyOrStrOpt event.issue_title "Untitled issue"
  match gen with
  | .ok s => s
  | .error _ =>
      "- " ++ issue_title ++ "\n- Review details and assign ownership\n- Suggest labels"

/-- `ReviewService.onboarding_reply`: a pure templated string (no
generation call, so nothing can fail). -/
def onboarding_reply (event : NormalizedEvent) : String :=
  let repo := pyOrStrOpt event.repository_full_name "this repository"
  "Thanks for offering to contribute to **" ++ repo ++ "**. "
    ++ "Please read `README` and `CONTRIBUTING` first, share your proposed approach, "
    ++ "and wait for maintainer confirmation before starting implementation."

/-- Modelled from the spec: `suggest_issue_labels(event)` is called from
`webhook_processor.py` but its definition is not among the sources under
`src/` (`review_service.py` there ends at `_extract_json`). Per §4.5 it is
a generation-backed helper with the fail-soft contract: any generation
failure degrades to a fixed heuristic value, never propagates. -/
def suggest_issue_labels (event : NormalizedEvent) (gen : Except String (List String)) :
    List String :=
  match gen with
  | .ok labels => labels
  | .error _ => ["needs-triage"]

/-- Modelled from the spec: `is_onboarding_request(text)` is called from
`webhook_processor.py` but not defined under `src/`. Per §4.5/§4.6 it is a
pure content heuristic choosing the onboarding reply for
contribution-offer style comments. -/
def is_onboarding_request (text : String) : Bool :=
  ["contribute", "onboard", "getting started", "where do i start", "how do i start"].any
    (fun w => pyIn w (pyLower text))

/-- Modelled from the spec: `is_assistant_mention(text, handle)` is called
from `webhook_processor.py` but not defined under `src/`. Per §4.6 it is
true exactly when the comment explicitly mentions the assistant handle. -/
def is_assistant_mention (comment_text assistant_handle : String) : Bool :=
  pyIn ("@" ++ pyLower assistant_handle) (pyLower comment_text)

/-- Modelled from the spec: `answer_issue_comment(...)` is called from
`webhook_processor.py` but not defined under `src/`. Per §4.5 it is a
generation-backed general assistant reply with the fail-soft contract:
any generation failure degrades to a fixed heuristic string. -/
def answer_issue_comment (event : NormalizedEvent)
    (comment_text assistant_handle : String) (gen : Except String String) : String :=
  match gen with
  | .ok s => s
  | .error _ =>
      "Thanks for the comment. A maintainer will take a look; "
        ++ "please share reproduction steps or extra context if you have them."

/-- `_record_non_pr_run`: append one `ReviewRun` row and commit. -/
def record_non_pr_run (s : ProcState) (delivery_log_id : Nat) (event : NormalizedEvent)
    (provider model_name run_type status : String) (result_json : Json) : ProcState :=
  { s with review_runs := s.review_runs ++
      [{ delivery_log_id := delivery_log_id, installation_id := event.installation_id,
         platform := event.platform, run_type := run_type, status := status,
         provider := provider, model_name := model_name,
         repository_full_name := event.repository_full_name,
         issue_number := event.issue_number, actor_login := event.sender_login,
         result_json := result_json }] }

/-- The issue-opened dispatch path of `_process_github_event`
(summary + label suggestion + label application + comment). Oracles:
`genSummary`/`genLabels` for the generation-backed helpers,
`addLabels`/`postComment` for the code-host calls (both wrapped in
`try/except` at this call site). The result is `Except String` so that an
exception escaping the path would surface as `.error`. -/
def issue_opened_path (event : NormalizedEvent) (delivery_log_id : Nat)
    (provider model_name : String)
    (genSummary : Except String String) (genLabels : Except String (List String))
    (addLabels : Except String (List String)) (postComment : Except String Unit)
    (s : ProcState) : Except String ProcState :=
  let summary := summarize_issue event genSummary
  let suggested_labels := suggest_issue_labels event genLabels
  let hasTarget := optIntTruthy event.installation_id
      && optStrTruthy event.repository_full_name && optIntTruthy event.issue_number
  let labelsRes : List String × Option String :=
    if hasTarget then
      match addLabels with
      | .ok ls => (ls, none)
      | .error e => ([], some e)
    else ([], none)
  let summary_with_labels :=
    if !suggested_labels.isEmpty then
      summary ++ "\n\nSuggested labels: "
        ++ ", ".intercalate (suggested_labels.map (fun l => "\x60" ++ l ++ "\x60"))
    else summary
  let s := record_non_pr_run s delivery_log_id event provider model_name
      "issue_summary" "done"
      (.obj [("summary", .str summary),
             ("suggested_labels", .arr (suggested_labels.map .str)),
             ("applied_labels", .arr (labelsRes.1.map .str)),
             ("label_error",
              match labelsRes.2 with
              | some e => .str e
              | none => .nullj)])
  if hasTarget then
    let s := { s with external_calls := s.external_calls
        ++ [("<!-- fossmate:issue-summary -->", summary_with_labels)] }
    match postComment with
    | .ok _ => .ok s
    | .error _ => .ok s
  else .ok s

/-- The comment-created dispatch path `_process_comment_reply`
(spam/self-reply/marker guards, mention gating, onboarding-vs-assistant
choice, run record, comment upsert). -/
def comment_reply_path (assistant_handle : String) (feature_flags : List (String × Bool))
    (event : NormalizedEvent) (delivery_log_id : Nat) (provider model_name : String)
    (genAnswer : Except String String) (postComment : Except String Unit)
    (s : ProcState) : Except String ProcState :=
  let comment := event.payload.getD "comment" (.obj [])
  let sender := event.payload.getD "sender" (.obj [])
  let comment_text := ((comment.getD "body" (.str "")).pystr).trim
  let comment_id := comment.getN "id"
  let sender_login := ((sender.getD "login" (.str "")).pystr).trim
  let sender_type := pyLower (((sender.getD "type" (.str "")).pystr).trim)
  if comment_text = "" then .ok s
  else if sender_type = "bot" || sender_login.endsWith "[bot]" then .ok s
  else if pyIn "<!-- fossmate:" (pyLower comment_text) then .ok s
  else
    let reply_all_comments := lookupFlag feature_flags "comment_reply_all" true
    let should_reply := reply_all_comments
        || is_assistant_mention comment_text assistant_handle
    if !should_reply then .ok s
    else
      let target_issue_number := pyOrOptInt event.issue_number event.pr_number
      if !(optIntTruthy event.installation_id
            && optStrTruthy event.repository_full_name
            && optIntTruthy target_issue_number) then .ok s
      else
        let rrm : String × String × String :=
          if is_onboarding_request comment_text then
            (onboarding_reply event, "issue_onboarding", "onboarding")
          else
            (answer_issue_comment event comment_text assistant_handle genAnswer,
             "comment_assistant", "comment-assistant")
        let marker :=
          if comment_id.truthy then
            "<!-- fossmate:" ++ rrm.2.2 ++ ":" ++ comment_id.pystr ++ " -->"
          else "<!-- fossmate:" ++ rrm.2.2 ++ " -->"
        let s := record_non_pr_run s delivery_log_id event provider model_name
            rrm.2.1 "done"
            (.obj [("reply", .str rrm.1),
                   ("source_comment_id", comment_id),
                   ("sender_login", .str sender_login),
                   ("reply_all_comments", .bool reply_all_comments),
                   ("assistant_handle", .str assistant_handle)])
        let s := { s with external_calls := s.external_calls ++ [(marker, rrm.1)] }
        match postComment with
        | .ok _ => .ok s
        | .error _ => .ok s

/-- Claim C1: the issue-comment and issue-opened helpers all exist and obey
the fail-soft contract — `summarize_issue`, `suggest_issue_labels` and
`answer_issue_comment` degrade to their fixed heuristic values on any
generation failure, `onboarding_reply`, `is_onboarding_request` and
`is_assistant_mention` are pure, and both the issue-opened dispatch path
(summary + label suggestion + label application + comment) and the
comment-reply path return normally for every event and every combination
of failing oracles — no generation or code-host failure propagates. -/
theorem review_helpers_and_dispatch_fail_soft :
    (∀ (event : NormalizedEvent) (e : String),
        summarize_issue event (.error e)
          = "- " ++ pyOrStrOpt event.issue_title "Untitled issue"
            ++ "\n- Review details and assign ownership\n- Suggest labels") ∧
    (∀ (event : NormalizedEvent) (e : String),
        suggest_issue_labels event (.error e) = ["needs-triage"]) ∧
    (∀ (event : NormalizedEvent) (ct ah e : String),
        answer_issue_comment event ct ah (.error e)
          = "Thanks for the comment. A maintainer will take a look; "
            ++ "please share reproduction steps or extra context if you have them.") ∧
    (∀ event : NormalizedEvent,
        onboarding_reply event
          = "Thanks for offering to contribute to **"
            ++ pyOrStrOpt event.repository_full_name "this repository" ++ "**. "
            ++ "Please read `README` and `CONTRIBUTING` first, share your proposed approach, "
            ++ "and wait for maintainer confirmation before starting implementation.") ∧
    (∀ (event : NormalizedEvent) (id : Nat) (p m : String)
        (genS : Except String String) (genL : Except String (List String))
        (addL : Except String (List String)) (post : Except String Unit) (s : ProcState),
        ∃ s', issue_opened_path event id p m genS genL addL post s = .ok s') ∧
    (∀ (ah : String) (flags : List (String × Bool)) (event : NormalizedEvent)
        (id : Nat) (p m : String) (genA : Except String String)
        (post : Except String Unit) (s : ProcState),
        ∃ s', comment_reply_path ah flags event id p m genA post s = .ok s') := by
  refine ⟨?_, ?_, ?_, ?_, ?_, ?_⟩
  · intro event e; rfl
  · intro event e; rfl
  · intro event ct ah e; rfl
  · intro event; rfl
  · intro event id p m genS genL addL post s
    simp only [issue_opened_path]
    repeat' split
    all_goals exact ⟨_, rfl⟩
  · intro ah flags event id p m genA post s
    simp only [comment_reply_path]
    repeat' split
    all_goals exact ⟨_, rfl⟩

end FOSSMate
